import Mathlib

/-!
Shallow embedding of the prediction acquisition and signal-orchestration
layer of the trading dashboard (`src/pages/Predictions.tsx`).

Modelling choices:
- TypeScript strings are modelled as `List Char`; `toUpperCase` becomes
  `List.map Char.toUpper` (length-preserving, faithful for the ASCII symbols
  this page handles).
- TS `number` fields are modelled as rationals; no claim computes with them.
- Every external call (the supabase table read, the `ai-trading-analysis`,
  `yahoo-finance-data` edge-function invocations) is modelled by an
  environment record supplying that call's response, in the supabase shape
  `{ data, error }` where either field may be null.
- Each operation returns, besides the new component state, the trace of
  external requests it issued, so that counting/ordering claims about
  dispatches, enrichment requests and repository reads are statable.
-/

namespace Predictions

/-- An error value carried by an external service response (message text). -/
abbrev Err := List Char

/-- A supabase-style response `{ data, error }`; either field may be null. -/
structure SupabaseResult (α : Type) where
  data : Option α
  error : Option Err
deriving DecidableEq

/-- The `signal_type` field of a prediction: `'buy' | 'sell' | 'hold'`. -/
inductive SignalType
  | buy
  | sell
  | hold
deriving DecidableEq

/-- A persisted prediction record (TS interface `Prediction`,
`Predictions.tsx:11-20`). `technical_indicators` is an uninterpreted payload
(TS `any`), modelled as raw text. -/
structure Prediction where
  id : List Char
  symbol : List Char
  predicted_price : ℚ
  confidence_score : ℚ
  signal_type : SignalType
  created_at : List Char
  expires_at : List Char
  technical_indicators : List Char
deriving DecidableEq

/-- A live quote snapshot (TS interface `CurrentQuote`,
`Predictions.tssx:22-27`). -/
structure CurrentQuote where
  symbol : List Char
  price : ℚ
  change : ℚ
  changePercent : ℚ
deriving DecidableEq

/-- One row of the `search_stocks` response (`searchData.results[i]`); only
the `symbol` field is read by this layer. -/
structure SearchRow where
  symbol : List Char
deriving DecidableEq

/-- The `data` payload of a `search_stocks` invocation:
`{ results: [{symbol, ...}] }`, where `results` may be absent. -/
structure SearchData where
  results : Option (List SearchRow)
deriving DecidableEq

/-- The `data` payload of a `current_quotes` invocation:
`{ quotes: [Quote] }`, where `quotes` may be absent (`data.quotes || []`). -/
structure QuotesData where
  quotes : Option (List CurrentQuote)
deriving DecidableEq

/-- The React component state of `Predictions` (`Predictions.tsx:30-36`):
`searchSymbol`, `predictions`, `currentQuotes` (a symbol-keyed object,
modelled as an association list), `loading`, `analyzing`,
`selectedPrediction`, `showAnalysisModal`. -/
structure PageState where
  searchSymbol : List Char
  predictions : List Prediction
  currentQuotes : List (List Char × CurrentQuote)
  loading : Bool
  analyzing : Bool
  selectedPrediction : Option Prediction
  showAnalysisModal : Bool
deriving DecidableEq

/-- The external requests an operation can issue, recorded in order:
a repository read (`from('ai_predictions').select`), an analysis dispatch
(`functions.invoke('ai-trading-analysis')`, with the symbol sent and whether
that dispatch came back failed), a batched quote request
(`functions.invoke('yahoo-finance-data', current_quotes)` with the symbol
list sent), and a fuzzy-search request
(`functions.invoke('yahoo-finance-data', search_stocks)` with the query). -/
inductive Event
  | fetchRecent
  | dispatchEv (symbol : List Char) (failed : Bool)
  | quoteReq (symbols : List (List Char))
  | searchReq (query : List Char)
deriving DecidableEq

/-- Outcome of one `analyzeStock` run: the early no-op return on blank input,
the early return on a dispatch error (`if (error) { ...; return; }`), or
normal completion. -/
inductive AnalyzeOutcome
  | noop
  | dispatchFailed (e : Err)
  | ok
deriving DecidableEq

/-- JS whitespace characters relevant to `String.prototype.trim` for the
inputs this page sees. `!searchSymbol.trim()` is true exactly when every
character of the string is whitespace (including the empty string). -/
def jsWhitespace (c : Char) : Bool :=
  c == ' ' || c == '\t' || c == '\n' || c == '\r' || c == '\x0b' || c == '\x0c'

/-- One character of the strict-symbol character class `[A-Z]`. -/
def isUpperAZ (c : Char) : Bool :=
  'A' ≤ c && c ≤ 'Z'

/-- The regex test `/^[A-Z]{1,5}$/.test(s)` (`Predictions.tsx:150`). -/
def strictSymbolTest (s : List Char) : Bool :=
  decide (1 ≤ s.length) && decide (s.length ≤ 5) && s.all isUpperAZ

/-- The guard of the fuzzy-search branch of `analyzeStock`
(`Predictions.tsx:150`):
`searchSymbol.length > 5 || !/^[A-Z]{1,5}$/.test(searchSymbol.toUpperCase())`. -/
def needsSearch (raw : List Char) : Bool :=
  decide (raw.length > 5) || !strictSymbolTest (raw.map Char.toUpper)

/-- `[...new Set(xs)]` (`Predictions.tsx:58,112`): order-preserving
deduplication keeping the first occurrence of each element. -/
def jsSetDedup : List (List Char) → List (List Char)
  | [] => []
  | x :: xs => x :: jsSetDedup (xs.filter (fun y => y != x))
termination_by l => l.length
decreasing_by
  simp only [List.length_cons]
  exact Nat.lt_succ_of_le (List.length_filter_le _ _)

/-- The JS object assignment `acc[quote.symbol] = quote` on an association
list: overwrite an existing key in place, otherwise append. -/
def setKey (m : List (List Char × CurrentQuote)) (q : CurrentQuote) :
    List (List Char × CurrentQuote) :=
  if m.any (fun p => p.1 == q.symbol) then
    m.map (fun p => if p.1 == q.symbol then (p.1, q) else p)
  else m ++ [(q.symbol, q)]

/-- `(data.quotes || []).reduce((acc, quote) => { acc[quote.symbol] = quote;
return acc; }, {})` (`Predictions.tsx:131-134`). -/
def buildQuotesMap (qs : List CurrentQuote) : List (List Char × CurrentQuote) :=
  qs.foldl setKey []

/-- `1000 * 60 * 60 * 24` milliseconds (`Predictions.tsx:76`). -/
def msPerDay : ℕ := 1000 * 60 * 60 * 24

/-- The fixed rotation table `allTrendingStocks` (`Predictions.tsx:67-73`). -/
def allTrendingStocks : List (List (List Char)) :=
  [ ["AAPL".toList, "NVDA".toList, "TSLA".toList],
    ["MSFT".toList, "GOOGL".toList, "META".toList],
    ["AMZN".toList, "NFLX".toList, "AMD".toList],
    ["BABA".toList, "TSM".toList, "ASML".toList],
    ["JPM".toList, "V".toList, "MA".toList] ]

/-- `todaysTrending` (`Predictions.tsx:76-77`): the epoch milliseconds of the
current instant and of the start-of-year reference point
(`new Date(new Date().getFullYear(), 0, 0).getTime()`) are parameters;
`dayOfYear = Math.floor((now - startOfYearMs) / msPerDay)` and the table is
indexed at `dayOfYear % allTrendingStocks.length`. -/
def todaysTrendingSymbols (now startOfYearMs : ℕ) : List (List Char) :=
  let dayOfYear := (now - startOfYearMs) / msPerDay
  allTrendingStocks.getD (dayOfYear % allTrendingStocks.length) []

/-- `fetchCurrentQuotes(symbols)` (`Predictions.tsx:120-140`), given the
response of the single batched `current_quotes` invocation and the previous
`currentQuotes` state. The request is always issued; on `error` the code
throws into its catch block and sets nothing (so the previous map stays); a
null `data` likewise lands in the catch block (reading `data.quotes` throws);
otherwise `currentQuotes` is replaced by the map built from
`data.quotes || []`. -/
def fetchCurrentQuotes (resp : SupabaseResult QuotesData)
    (symbols : List (List Char)) (prev : List (List Char × CurrentQuote)) :
    List (List Char × CurrentQuote) × List Event :=
  let tr := [Event.quoteReq symbols]
  match resp.error with
  | some _ => (prev, tr)
  | none =>
    match resp.data with
    | none => (prev, tr)
    | some d => (buildQuotesMap (d.quotes.getD []), tr)

/-- `fetchPredictions()` (`Predictions.tsx:98-118`), given the responses of
the repository re-read and of the quote call it may trigger. On `error` the
code throws into its catch block with no state change; otherwise it sets
`predictions` to `data || []` and, only `if (data && data.length > 0)`,
requests quotes for the deduplicated symbol set. -/
def fetchPredictions (fetchResp : SupabaseResult (List Prediction))
    (quotesResp : SupabaseResult QuotesData) (st : PageState) :
    PageState × List Event :=
  match fetchResp.error with
  | some _ => (st, [Event.fetchRecent])
  | none =>
    let st2 := { st with predictions := fetchResp.data.getD [] }
    match fetchResp.data with
    | some ps =>
      if ps.length > 0 then
        let symbols := jsSetDedup (ps.map Prediction.symbol)
        let res := fetchCurrentQuotes quotesResp symbols st2.currentQuotes
        ({ st2 with currentQuotes := res.1 }, Event.fetchRecent :: res.2)
      else (st2, [Event.fetchRecent])
    | none => (st2, [Event.fetchRecent])

/-- The environment of one `initializePage()` run: the clock values feeding
the rotation, the response of the first repository read, the per-symbol
outcome of each `ai-trading-analysis` dispatch, the response of the
repository re-read done by `fetchPredictions`, and the response of the
quote call. -/
structure InitEnv where
  now : ℕ
  startOfYearMs : ℕ
  firstFetch : SupabaseResult (List Prediction)
  dispatchFails : List Char → Option Err
  refetch : SupabaseResult (List Prediction)
  quotesResp : SupabaseResult QuotesData

/-- `generateTrendingStocksPredictions()` (`Predictions.tsx:65-96`): computes
today's trending group, dispatches one analysis request per symbol inside a
`try/catch` whose catch only logs (the per-symbol outcome never alters
control flow), then calls `fetchPredictions()`. -/
def generateTrendingStocksPredictions (env : InitEnv) (st : PageState) :
    PageState × List Event :=
  let todaysTrending := todaysTrendingSymbols env.now env.startOfYearMs
  let dispatchTrace :=
    todaysTrending.map (fun s => Event.dispatchEv s (env.dispatchFails s).isSome)
  let res := fetchPredictions env.refetch env.quotesResp st
  (res.1, dispatchTrace ++ res.2)

/-- `initializePage()` (`Predictions.tsx:42-63`). The first repository read
destructures only `data` (`const { data: existingPredictions } = ...`): the
`error` field is discarded. If `!existingPredictions ||
existingPredictions.length === 0` the fallback generation path runs;
otherwise predictions are set and quotes requested for the deduplicated
symbol set. -/
def initPage (env : InitEnv) (st : PageState) : PageState × List Event :=
  let stL := { st with loading := true }
  let res :=
    match env.firstFetch.data with
    | none => generateTrendingStocksPredictions env stL
    | some ps =>
      if ps.length = 0 then generateTrendingStocksPredictions env stL
      else
        let stP := { stL with predictions := ps }
        let symbols := jsSetDedup (ps.map Prediction.symbol)
        let rq := fetchCurrentQuotes env.quotesResp symbols stP.currentQuotes
        ({ stP with currentQuotes := rq.1 }, rq.2)
  ({ res.1 with loading := false }, Event.fetchRecent :: res.2)

/-- Symbol resolution, the first half of `analyzeStock()`
(`Predictions.tsx:147-166`): upper-case the raw input; if it is longer than
5 characters or its upper-cased form fails the strict pattern, issue a
fuzzy-search request — taking the first result's symbol when
`searchData?.results` is non-empty, and keeping the upper-cased input when
the search errors/throws (modelled as a null `data`) or returns no results.
`searchData` is the destructured `data` field of the invocation; its `error`
field is not read. -/
def resolveSymbol (raw : List Char) (searchData : Option SearchData) :
    List Char × List Event :=
  let upper := raw.map Char.toUpper
  if needsSearch raw then
    let tr := [Event.searchReq raw]
    match searchData with
    | some sd =>
      match sd.results with
      | some (r :: _) => (r.symbol, tr)
      | some [] => (upper, tr)
      | none => (upper, tr)
    | none => (upper, tr)
  else (upper, [])

/-- The environment of one `analyzeStock()` run: the `data` field of the
fuzzy-search response (null when the call errored or threw), the response of
the `ai-trading-analysis` dispatch, and the responses feeding the
`fetchPredictions()` refresh. -/
structure AnalyzeEnv where
  searchData : Option SearchData
  analysisResp : SupabaseResult Unit
  refetch : SupabaseResult (List Prediction)
  quotesResp : SupabaseResult QuotesData

/-- `analyzeStock()` (`Predictions.tsx:142-189`): return at once when
`!searchSymbol.trim()`; otherwise set `analyzing`, resolve the symbol,
dispatch one analysis request; on a dispatch `error` log and return early
(no refresh, `searchSymbol` kept); otherwise refresh via
`fetchPredictions()` and clear `searchSymbol`. `analyzing` is reset in the
`finally` block on every non-noop path. -/
def analyzeStock (env : AnalyzeEnv) (st : PageState) :
    PageState × List Event × AnalyzeOutcome :=
  if st.searchSymbol.all jsWhitespace then (st, [], AnalyzeOutcome.noop)
  else
    let stA := { st with analyzing := true }
    let resolved := resolveSymbol stA.searchSymbol env.searchData
    let trD := [Event.dispatchEv resolved.1 env.analysisResp.error.isSome]
    match env.analysisResp.error with
    | some e =>
      ({ stA with analyzing := false }, resolved.2 ++ trD, AnalyzeOutcome.dispatchFailed e)
    | none =>
      let res := fetchPredictions env.refetch env.quotesResp stA
      ({ res.1 with searchSymbol := [], analyzing := false },
        resolved.2 ++ trD ++ res.2, AnalyzeOutcome.ok)

/-- The symbols of the analysis-dispatch requests in a trace, in order. -/
def dispatchedSyms (tr : List Event) : List (List Char) :=
  tr.filterMap (fun e => match e with
    | Event.dispatchEv s _ => some s
    | _ => none)

/-- The symbol lists of the batched quote requests in a trace, in order. -/
def quoteReqs (tr : List Event) : List (List (List Char)) :=
  tr.filterMap (fun e => match e with
    | Event.quoteReq s => some s
    | _ => none)

/-- The number of repository reads in a trace. -/
def fetchCount (tr : List Event) : ℕ :=
  tr.countP (fun e => match e with
    | Event.fetchRecent => true
    | _ => false)

/-- The number of fuzzy-search requests in a trace. -/
def searchCount (tr : List Event) : ℕ :=
  tr.countP (fun e => match e with
    | Event.searchReq _ => true
    | _ => false)

/-- A fresh component state, as mounted (`useState` initial values). -/
def emptyState : PageState :=
  { searchSymbol := []
    predictions := []
    currentQuotes := []
    loading := false
    analyzing := false
    selectedPrediction := none
    showAnalysisModal := false }

/-! ### Helper lemmas -/

theorem mem_of_mem_jsSetDedup {a : List Char} (l : List (List Char)) :
    a ∈ jsSetDedup l → a ∈ l := by
  induction l using jsSetDedup.induct with
  | case1 =>
    intro h
    simp [jsSetDedup] at h
  | case2 x xs ih =>
    intro h
    rw [jsSetDedup] at h
    rcases List.mem_cons.mp h with h1 | h2
    · exact h1 ▸ List.mem_cons_self _ _
    · exact List.mem_cons_of_mem _ (List.mem_of_mem_filter (ih h2))

theorem jsSetDedup_nodup (l : List (List Char)) : (jsSetDedup l).Nodup := by
  induction l using jsSetDedup.induct with
  | case1 => simp [jsSetDedup]
  | case2 x xs ih =>
    rw [jsSetDedup]
    refine List.nodup_cons.mpr ⟨fun hx => ?_, ih⟩
    have h2 := (List.mem_filter.mp (mem_of_mem_jsSetDedup _ hx)).2
    simp at h2

theorem dispatchedSyms_append (a b : List Event) :
    dispatchedSyms (a ++ b) = dispatchedSyms a ++ dispatchedSyms b := by
  simp [dispatchedSyms, List.filterMap_append]

theorem quoteReqs_append (a b : List Event) :
    quoteReqs (a ++ b) = quoteReqs a ++ quoteReqs b := by
  simp [quoteReqs, List.filterMap_append]

theorem fetchCount_append (a b : List Event) :
    fetchCount (a ++ b) = fetchCount a + fetchCount b := by
  simp [fetchCount, List.countP_append]

theorem dispatchedSyms_map_dispatch (l : List (List Char)) (f : List Char → Bool) :
    dispatchedSyms (l.map (fun s => Event.dispatchEv s (f s))) = l := by
  induction l with
  | nil => rfl
  | cons x xs ih => simpa [dispatchedSyms, List.filterMap_cons] using ih

theorem quoteReqs_map_dispatch (l : List (List Char)) (f : List Char → Bool) :
    quoteReqs (l.map (fun s => Event.dispatchEv s (f s))) = [] := by
  induction l with
  | nil => rfl
  | cons x xs _ => simp [quoteReqs, List.filterMap_cons]

theorem fetchCount_map_dispatch (l : List (List Char)) (f : List Char → Bool) :
    fetchCount (l.map (fun s => Event.dispatchEv s (f s))) = 0 := by
  induction l with
  | nil => rfl
  | cons x xs _ => simp [fetchCount, List.countP_cons]

theorem fetchCurrentQuotes_trace (resp : SupabaseResult QuotesData)
    (symbols : List (List Char)) (prev : List (List Char × CurrentQuote)) :
    (fetchCurrentQuotes resp symbols prev).2 = [Event.quoteReq symbols] := by
  rcases resp with ⟨d, err⟩
  rcases err with _ | e
  · rcases d with _ | d <;> rfl
  · rfl

theorem fetchPredictions_no_dispatch (f : SupabaseResult (List Prediction))
    (q : SupabaseResult QuotesData) (st : PageState) :
    dispatchedSyms (fetchPredictions f q st).2 = [] := by
  rcases f with ⟨d, err⟩
  rcases err with _ | e
  · rcases d with _ | ps
    · rfl
    · rcases ps with _ | ⟨p, ps⟩
      · rfl
      · simp [fetchPredictions, fetchCurrentQuotes_trace, dispatchedSyms]
  · rfl

theorem fetchPredictions_fetchCount (f : SupabaseResult (List Prediction))
    (q : SupabaseResult QuotesData) (st : PageState) :
    fetchCount (fetchPredictions f q st).2 = 1 := by
  rcases f with ⟨d, err⟩
  rcases err with _ | e
  · rcases d with _ | ps
    · rfl
    · rcases ps with _ | ⟨p, ps⟩
      · rfl
      · simp [fetchPredictions, fetchCurrentQuotes_trace, fetchCount]
  · rfl

theorem fetchPredictions_predictions (f : SupabaseResult (List Prediction))
    (q : SupabaseResult QuotesData) (st : PageState) (h : f.error = none) :
    (fetchPredictions f q st).1.predictions = f.data.getD [] := by
  rcases f with ⟨d, err⟩
  cases h
  rcases d with _ | ps
  · rfl
  · rcases ps with _ | ⟨p, ps⟩
    · rfl
    · simp [fetchPredictions]

theorem fetchPredictions_quoteReqs (f : SupabaseResult (List Prediction))
    (q : SupabaseResult QuotesData) (st : PageState) :
    (quoteReqs (fetchPredictions f q st).2).length ≤ 1
    ∧ (∀ r ∈ quoteReqs (fetchPredictions f q st).2,
        r = jsSetDedup ((fetchPredictions f q st).1.predictions.map Prediction.symbol))
    ∧ ((fetchPredictions f q st).1.predictions = [] →
        quoteReqs (fetchPredictions f q st).2 = []) := by
  rcases f with ⟨d, err⟩
  rcases err with _ | e
  · rcases d with _ | ps
    · exact ⟨by simp [fetchPredictions, quoteReqs], by simp [fetchPredictions, quoteReqs],
        fun _ => by simp [fetchPredictions, quoteReqs]⟩
    · rcases ps with _ | ⟨p, ps⟩
      · exact ⟨by simp [fetchPredictions, quoteReqs], by simp [fetchPredictions, quoteReqs],
          fun _ => by simp [fetchPredictions, quoteReqs]⟩
      · refine ⟨?_, ?_, ?_⟩
        · simp [fetchPredictions, fetchCurrentQuotes_trace, quoteReqs]
        · simp [fetchPredictions, fetchCurrentQuotes_trace, quoteReqs]
        · intro h
          simp [fetchPredictions] at h
  · exact ⟨by simp [fetchPredictions, quoteReqs], by simp [fetchPredictions, quoteReqs],
      fun _ => by simp [fetchPredictions, quoteReqs]⟩

theorem resolveSymbol_trace (raw : List Char) (sd : Option SearchData) :
    (resolveSymbol raw sd).2 = [] ∨ (resolveSymbol raw sd).2 = [Event.searchReq raw] := by
  unfold resolveSymbol
  by_cases h : needsSearch raw
  · rcases sd with _ | ⟨_ | (_ | ⟨r, rs⟩)⟩ <;> simp [h]
  · simp [h]

theorem dispatchedSyms_fetchRecent_cons (tr : List Event) :
    dispatchedSyms (Event.fetchRecent :: tr) = dispatchedSyms tr := by
  simp [dispatchedSyms]

theorem quoteReqs_fetchRecent_cons (tr : List Event) :
    quoteReqs (Event.fetchRecent :: tr) = quoteReqs tr := by
  simp [quoteReqs]

theorem fetchCount_fetchRecent_cons (tr : List Event) :
    fetchCount (Event.fetchRecent :: tr) = fetchCount tr + 1 := by
  simp [fetchCount, List.countP_cons]

theorem gen_state (env : InitEnv) (st : PageState) :
    (generateTrendingStocksPredictions env st).1
      = (fetchPredictions env.refetch env.quotesResp st).1 := rfl

theorem gen_dispatches (env : InitEnv) (st : PageState) :
    dispatchedSyms (generateTrendingStocksPredictions env st).2
      = todaysTrendingSymbols env.now env.startOfYearMs := by
  simp only [generateTrendingStocksPredictions]
  rw [dispatchedSyms_append,
    dispatchedSyms_map_dispatch _ (fun s => (env.dispatchFails s).isSome),
    fetchPredictions_no_dispatch, List.append_nil]

theorem gen_fetchCount (env : InitEnv) (st : PageState) :
    fetchCount (generateTrendingStocksPredictions env st).2 = 1 := by
  simp only [generateTrendingStocksPredictions]
  rw [fetchCount_append,
    fetchCount_map_dispatch _ (fun s => (env.dispatchFails s).isSome),
    fetchPredictions_fetchCount]

theorem gen_quoteReqs (env : InitEnv) (st : PageState) :
    quoteReqs (generateTrendingStocksPredictions env st).2
      = quoteReqs (fetchPredictions env.refetch env.quotesResp st).2 := by
  simp only [generateTrendingStocksPredictions]
  rw [quoteReqs_append,
    quoteReqs_map_dispatch _ (fun s => (env.dispatchFails s).isSome),
    List.nil_append]

theorem initPage_gen (env : InitEnv) (st : PageState)
    (h : env.firstFetch.data = none ∨ env.firstFetch.data = some []) :
    initPage env st
      = ({ (generateTrendingStocksPredictions env { st with loading := true }).1
            with loading := false },
         Event.fetchRecent ::
           (generateTrendingStocksPredictions env { st with loading := true }).2) := by
  rcases h with h | h
  · unfold initPage
    rw [h]
  · unfold initPage
    rw [h]
    rfl

theorem initPage_gen_parts (env : InitEnv) (st : PageState)
    (h : env.firstFetch.data = none ∨ env.firstFetch.data = some []) :
    (initPage env st).1.predictions
      = (fetchPredictions env.refetch env.quotesResp
          { st with loading := true }).1.predictions
    ∧ quoteReqs (initPage env st).2
      = quoteReqs (fetchPredictions env.refetch env.quotesResp
          { st with loading := true }).2 := by
  rw [initPage_gen env st h]
  exact ⟨rfl, by rw [quoteReqs_fetchRecent_cons, gen_quoteReqs]⟩

/-! ### Claim theorems -/

/-- C4: for every raw input whose upper-cased form matches `^[A-Z]{1,5}$`,
symbol resolution returns the upper-cased input as the canonical symbol and
issues no fuzzy-search request (empty request trace), whatever the search
service would have answered. -/
theorem c4_strict_symbol_no_search (raw : List Char) (sd : Option SearchData)
    (h : strictSymbolTest (raw.map Char.toUpper) = true) :
    resolveSymbol raw sd = (raw.map Char.toUpper, []) := by
  have hlen : raw.length ≤ 5 := by
    unfold strictSymbolTest at h
    simp only [Bool.and_eq_true, decide_eq_true_eq] at h
    simpa using h.1.2
  have hns : needsSearch raw = false := by
    unfold needsSearch
    rw [h]
    simp only [Bool.not_true, Bool.or_false, decide_eq_false_iff_not]
    omega
  unfold resolveSymbol
  rw [hns]
  simp

/-- C4 witness: `"aapl"` upper-cases to the strict symbol `"AAPL"`, so it is
returned unchanged with no search request even though the search service
would have answered `MSFT`. -/
theorem c4_strict_symbol_no_search_witness :
    strictSymbolTest ("aapl".toList.map Char.toUpper) = true
    ∧ resolveSymbol "aapl".toList
        (some { results := some [{ symbol := "MSFT".toList }] })
      = ("aapl".toList.map Char.toUpper, []) :=
  ⟨by decide, c4_strict_symbol_no_search _ _ (by decide)⟩

/-- C5: for every raw input whose upper-cased form fails the strict symbol
pattern, resolution issues exactly one fuzzy-search request; it returns the
first search result's symbol when the search produced at least one result,
and the upper-cased input unchanged when the search failed (null `data`) or
returned no / absent results. Resolution always produces a symbol string (it
is a total function into strings). -/
theorem c5_search_resolution (raw : List Char) (sd : Option SearchData)
    (h : strictSymbolTest (raw.map Char.toUpper) = false) :
    resolveSymbol raw sd =
      ((match sd with
        | some ⟨some (r :: _)⟩ => r.symbol
        | _ => raw.map Char.toUpper), [Event.searchReq raw]) := by
  have hns : needsSearch raw = true := by
    simp [needsSearch, h]
  unfold resolveSymbol
  rw [hns]
  rcases sd with _ | ⟨_ | (_ | ⟨r, rs⟩)⟩ <;> simp

/-- C5 witness: `"apple inc"` fails the strict pattern; with a search
response `[{symbol: "AAPL"}]` resolution answers `"AAPL"` after exactly one
search request. -/
theorem c5_search_resolution_witness :
    strictSymbolTest ("apple inc".toList.map Char.toUpper) = false
    ∧ resolveSymbol "apple inc".toList
        (some { results := some [{ symbol := "AAPL".toList }] })
      = ("AAPL".toList, [Event.searchReq "apple inc".toList]) :=
  ⟨by decide, c5_search_resolution _ _ (by decide)⟩

/-- C6: the trending rotation is a deterministic pure function of the
calendar day: it returns the rotation-table group at index
`dayOfYear % tableLength` where `dayOfYear = (now - startOfYear) / oneDay`;
two calls with the same day-of-year value yield the same group, and since
the table has positive length the index is always in bounds. -/
theorem c6_rotation_pure (now1 now2 start : ℕ)
    (h : (now1 - start) / msPerDay = (now2 - start) / msPerDay) :
    todaysTrendingSymbols now1 start = todaysTrendingSymbols now2 start
    ∧ todaysTrendingSymbols now1 start =
        allTrendingStocks.getD (((now1 - start) / msPerDay) % allTrendingStocks.length) []
    ∧ 0 < allTrendingStocks.length
    ∧ ((now1 - start) / msPerDay) % allTrendingStocks.length < allTrendingStocks.length := by
  refine ⟨?_, rfl, by decide, Nat.mod_lt _ (by decide)⟩
  unfold todaysTrendingSymbols
  rw [h]

/-- C6 witness: two instants of day 1 of the year (one day plus 0 ms and
plus 5 ms after the reference point) select the same group. -/
theorem c6_rotation_pure_witness :
    (msPerDay - 0) / msPerDay = (msPerDay + 5 - 0) / msPerDay
    ∧ (todaysTrendingSymbols msPerDay 0 = todaysTrendingSymbols (msPerDay + 5) 0
       ∧ todaysTrendingSymbols msPerDay 0 =
           allTrendingStocks.getD
             (((msPerDay - 0) / msPerDay) % allTrendingStocks.length) []
       ∧ 0 < allTrendingStocks.length
       ∧ ((msPerDay - 0) / msPerDay) % allTrendingStocks.length
           < allTrendingStocks.length) :=
  ⟨by decide, c6_rotation_pure _ _ _ (by decide)⟩

/-- C10: for every raw input that is empty or consists only of whitespace
(`!searchSymbol.trim()`), `analyzeStock` returns immediately as a no-op:
state unchanged, empty request trace (no search, dispatch, repository or
quote call). -/
theorem c10_blank_input_noop (env : AnalyzeEnv) (st : PageState)
    (h : st.searchSymbol.all jsWhitespace = true) :
    analyzeStock env st = (st, [], AnalyzeOutcome.noop) := by
  unfold analyzeStock
  rw [h]
  simp

/-- C10 witness: a two-space input is a no-op. -/
theorem c10_blank_input_noop_witness :
    ({ emptyState with searchSymbol := "  ".toList } :
        PageState).searchSymbol.all jsWhitespace = true
    ∧ analyzeStock
        { searchData := none
          analysisResp := { data := none, error := none }
          refetch := { data := none, error := none }
          quotesResp := { data := none, error := none } }
        { emptyState with searchSymbol := "  ".toList }
      = ({ emptyState with searchSymbol := "  ".toList }, [], AnalyzeOutcome.noop) :=
  ⟨by decide, c10_blank_input_noop _ _ (by decide)⟩

/-- The concrete `analyzeStock` state used for settling C7. -/
def c7St : PageState := { emptyState with searchSymbol := "AAPL".toList }

/-- The concrete `analyzeStock` environment used for settling C7: the
analysis dispatch comes back with an error. -/
def c7Env : AnalyzeEnv :=
  { searchData := none
    analysisResp := { data := none, error := some "inference failed".toList }
    refetch := { data := some [], error := none }
    quotesResp := { data := none, error := none } }

/-- C7: when the single on-demand analysis dispatch returns an error,
`analyzeStock` ends in the dispatch-failure outcome, performs no refresh
(no repository read in its trace), and leaves the previously held
predictions, quotes and search input unchanged. -/
theorem c7_dispatch_error_no_refresh (env : AnalyzeEnv) (st : PageState) (e : Err)
    (h1 : st.searchSymbol.all jsWhitespace = false)
    (h2 : env.analysisResp.error = some e) :
    (analyzeStock env st).2.2 = AnalyzeOutcome.dispatchFailed e
    ∧ (analyzeStock env st).1.predictions = st.predictions
    ∧ (analyzeStock env st).1.currentQuotes = st.currentQuotes
    ∧ (analyzeStock env st).1.searchSymbol = st.searchSymbol
    ∧ fetchCount (analyzeStock env st).2.1 = 0 := by
  unfold analyzeStock
  rw [h1, h2]
  rcases resolveSymbol_trace st.searchSymbol env.searchData with htr | htr <;>
    simp [htr, fetchCount_append, fetchCount, List.countP_cons]

/-- C7 witness: a failing dispatch for the input `"AAPL"` leaves the fresh
state untouched and triggers no refresh. -/
theorem c7_dispatch_error_no_refresh_witness :
    c7St.searchSymbol.all jsWhitespace = false
    ∧ c7Env.analysisResp.error = some "inference failed".toList
    ∧ ((analyzeStock c7Env c7St).2.2
         = AnalyzeOutcome.dispatchFailed "inference failed".toList
       ∧ (analyzeStock c7Env c7St).1.predictions = c7St.predictions
       ∧ (analyzeStock c7Env c7St).1.currentQuotes = c7St.currentQuotes
       ∧ (analyzeStock c7Env c7St).1.searchSymbol = c7St.searchSymbol
       ∧ fetchCount (analyzeStock c7Env c7St).2.1 = 0) :=
  ⟨by decide, rfl, c7_dispatch_error_no_refresh c7Env c7St _ (by decide) rfl⟩

/-- The non-empty quote map held before the failing quote call of the C8
counterexample. -/
def c8PrevQuotes : List (List Char × CurrentQuote) :=
  [("NVDA".toList,
    { symbol := "NVDA".toList, price := 100, change := 1, changePercent := 1 })]

/-- C8 counterexample: with a non-empty previously held quote map, a failing
quote-service call makes `fetchCurrentQuotes` keep that non-empty map — it
does not produce an empty mapping, refuting the claim as stated. -/
theorem c8_counterexample :
    (fetchCurrentQuotes { data := none, error := some "service down".toList }
        ["AAPL".toList] c8PrevQuotes).1 = c8PrevQuotes
    ∧ c8PrevQuotes ≠ [] :=
  ⟨rfl, by simp [c8PrevQuotes]⟩

/-- C8 (amended): when the quote-service call fails, `fetchCurrentQuotes`
absorbs the error — it still issues the one batched request, and leaves the
caller's quote map exactly as it was (hence empty only on a fresh
initialization) — so the enclosing operation never fails because of a
quote-service error. -/
theorem c8_failure_absorbed (resp : SupabaseResult QuotesData)
    (symbols : List (List Char)) (prev : List (List Char × CurrentQuote)) (e : Err)
    (h : resp.error = some e) :
    fetchCurrentQuotes resp symbols prev = (prev, [Event.quoteReq symbols]) := by
  unfold fetchCurrentQuotes
  rw [h]

/-- C8 witness: a failing quote call over a fresh (empty) map leaves it
empty. -/
theorem c8_failure_absorbed_witness :
    ({ data := none, error := some "service down".toList } :
        SupabaseResult QuotesData).error = some "service down".toList
    ∧ fetchCurrentQuotes { data := none, error := some "service down".toList }
        ["AAPL".toList] [] = ([], [Event.quoteReq ["AAPL".toList]]) :=
  ⟨rfl, c8_failure_absorbed _ _ _ _ rfl⟩

/-- The concrete `initializePage` environment used for settling C1: the
first repository read fails (`data` null, `error` set). -/
def c1Env : InitEnv :=
  { now := 0
    startOfYearMs := 0
    firstFetch := { data := none, error := some "connection refused".toList }
    dispatchFails := fun _ => none
    refetch := { data := some [], error := none }
    quotesResp := { data := none, error := none } }

/-- C1 counterexample: with a failing first repository read, `initializePage`
enters the fallback-generation path anyway — it dispatches all three of
today's trending symbols — refuting the claim that a repository error is
returned and generation is skipped. (The operation has no error output at
all: the code destructures only `data` from the read.) -/
theorem c1_counterexample :
    c1Env.firstFetch.error = some "connection refused".toList
    ∧ dispatchedSyms (initPage c1Env emptyState).2
        = ["AAPL".toList, "NVDA".toList, "TSLA".toList] :=
  ⟨rfl, by decide⟩

/-- C1 (amended): when the repository read fails, `initializePage` discards
the `error` field — the run is identical to one where the read succeeded
with no rows — and enters the fallback-generation path, dispatching today's
trending symbols; no error is surfaced to the caller (the result carries no
error channel). -/
theorem c1_read_error_ignored (env : InitEnv) (st : PageState)
    (h : env.firstFetch.data = none) :
    initPage env st
      = initPage { env with firstFetch := { data := none, error := none } } st
    ∧ dispatchedSyms (initPage env st).2
      = todaysTrendingSymbols env.now env.startOfYearMs := by
  constructor
  · unfold initPage
    rw [h]
    rfl
  · rw [initPage_gen env st (Or.inl h), dispatchedSyms_fetchRecent_cons, gen_dispatches]

/-- C1 amended-claim witness: the failing-read environment runs exactly like
the empty-success one and dispatches today's group. -/
theorem c1_read_error_ignored_witness :
    c1Env.firstFetch.data = none
    ∧ (initPage c1Env emptyState
         = initPage { c1Env with firstFetch := { data := none, error := none } }
             emptyState
       ∧ dispatchedSyms (initPage c1Env emptyState).2
         = todaysTrendingSymbols c1Env.now c1Env.startOfYearMs) :=
  ⟨rfl, c1_read_error_ignored c1Env emptyState rfl⟩

/-- C2: with a repository holding 0 predictions, `initializePage` dispatches
exactly the trending symbols of the day, one per symbol, in rotation-table
order — for every environment, i.e. for every pattern of per-symbol dispatch
failures, so no failing dispatch ever prevents a later one. -/
theorem c2_dispatch_count (env : InitEnv) (st : PageState)
    (h : env.firstFetch.data = some []) :
    dispatchedSyms (initPage env st).2
      = todaysTrendingSymbols env.now env.startOfYearMs := by
  rw [initPage_gen env st (Or.inr h), dispatchedSyms_fetchRecent_cons, gen_dispatches]

/-- The concrete `initializePage` environment used for settling C2 and C3:
empty repository, two of the three trending dispatches fail. -/
def c2Env : InitEnv :=
  { now := 0
    startOfYearMs := 0
    firstFetch := { data := some [], error := none }
    dispatchFails := fun s =>
      if s = "AAPL".toList then none else some "inference failed".toList
    refetch := { data := some [], error := none }
    quotesResp := { data := none, error := none } }

/-- C2 witness: with two of three dispatches failing, all three trending
symbols are still dispatched, in order. -/
theorem c2_dispatch_count_witness :
    c2Env.firstFetch.data = some []
    ∧ dispatchedSyms (initPage c2Env emptyState).2
        = todaysTrendingSymbols c2Env.now c2Env.startOfYearMs :=
  ⟨rfl, c2_dispatch_count c2Env emptyState rfl⟩

/-- A concrete persisted prediction used by witnesses. -/
def samplePrediction : Prediction :=
  { id := "p1".toList
    symbol := "AAPL".toList
    predicted_price := 190
    confidence_score := 7/10
    signal_type := SignalType.buy
    created_at := "2025-01-01T00:00:00Z".toList
    expires_at := "2025-01-02T00:00:00Z".toList
    technical_indicators := [] }

/-- C3: when the repository starts empty and the post-batch re-query
succeeds, `initializePage` completes normally whatever the per-symbol
dispatch outcomes were: it re-reads the repository exactly once after the
batch (two repository reads in the whole run) and ends holding exactly the
predictions that re-read returned. -/
theorem c3_partial_failure_returns_repo (env : InitEnv) (st : PageState)
    (ps : List Prediction)
    (h1 : env.firstFetch.data = some [])
    (h2 : env.refetch.error = none)
    (h3 : env.refetch.data = some ps) :
    (initPage env st).1.predictions = ps
    ∧ fetchCount (initPage env st).2 = 2
    ∧ (initPage env st).1.loading = false := by
  rw [initPage_gen env st (Or.inr h1)]
  refine ⟨?_, ?_, rfl⟩
  · show (generateTrendingStocksPredictions env
      { st with loading := true }).1.predictions = ps
    rw [gen_state, fetchPredictions_predictions _ _ _ h2, h3]
    rfl
  · rw [fetchCount_fetchRecent_cons, gen_fetchCount]

/-- The concrete `initializePage` environment used for the C3 witness: empty
repository, two of three dispatches fail, the re-query returns one
prediction, and even the quote call fails. -/
def c3Env : InitEnv :=
  { c2Env with
    refetch := { data := some [samplePrediction], error := none }
    quotesResp := { data := none, error := some "quotes down".toList } }

/-- C3 witness: with two of three dispatches failing and the quote call
failing too, `initializePage` still returns the re-queried prediction after
exactly two repository reads. -/
theorem c3_partial_failure_returns_repo_witness :
    c3Env.firstFetch.data = some []
    ∧ c3Env.refetch.error = none
    ∧ c3Env.refetch.data = some [samplePrediction]
    ∧ ((initPage c3Env emptyState).1.predictions = [samplePrediction]
       ∧ fetchCount (initPage c3Env emptyState).2 = 2
       ∧ (initPage c3Env emptyState).1.loading = false) :=
  ⟨rfl, rfl, rfl, c3_partial_failure_returns_repo c3Env emptyState _ rfl rfl rfl⟩

/-- The concrete `initializePage` environment used for settling C9: the
repository is empty before and after a generation batch in which every
dispatch fails. -/
def c9Env : InitEnv :=
  { now := 0
    startOfYearMs := 0
    firstFetch := { data := some [], error := none }
    dispatchFails := fun _ => some "inference down".toList
    refetch := { data := some [], error := none }
    quotesResp := { data := none, error := none } }

/-- C9 counterexample: a complete `initializePage` run that ends with an
empty prediction list issues no enrichment request at all, refuting the
claim that every run ends by issuing one batched enrichment request
(including when the prediction list is empty). -/
theorem c9_counterexample :
    quoteReqs (initPage c9Env emptyState).2 = [] := by decide

/-- C9 (amended): `initializePage` issues at most one batched enrichment
request; any request it issues is for the deduplicated (duplicate-free)
symbol set of the predictions it ends up holding, and when the final
prediction list is empty no enrichment request is issued — in particular it
never issues one quote request per prediction and never passes a symbol
twice. -/
theorem c9_batched_enrichment (env : InitEnv) (st : PageState) :
    (quoteReqs (initPage env st).2).length ≤ 1
    ∧ (∀ r ∈ quoteReqs (initPage env st).2,
        r = jsSetDedup ((initPage env st).1.predictions.map Prediction.symbol)
        ∧ r.Nodup)
    ∧ ((initPage env st).1.predictions = [] → quoteReqs (initPage env st).2 = []) := by
  rcases hd : env.firstFetch.data with _ | ps
  · obtain ⟨hpred, hreq⟩ := initPage_gen_parts env st (Or.inl hd)
    rw [hpred, hreq]
    obtain ⟨ha, hb, hc⟩ :=
      fetchPredictions_quoteReqs env.refetch env.quotesResp { st with loading := true }
    exact ⟨ha, fun r hr => ⟨hb r hr, (hb r hr) ▸ jsSetDedup_nodup _⟩, hc⟩
  · rcases ps with _ | ⟨p, ps⟩
    · obtain ⟨hpred, hreq⟩ := initPage_gen_parts env st (Or.inr hd)
      rw [hpred, hreq]
      obtain ⟨ha, hb, hc⟩ :=
        fetchPredictions_quoteReqs env.refetch env.quotesResp { st with loading := true }
      exact ⟨ha, fun r hr => ⟨hb r hr, (hb r hr) ▸ jsSetDedup_nodup _⟩, hc⟩
    · refine ⟨?_, ?_, ?_⟩ <;>
        simp [initPage, hd, fetchCurrentQuotes_trace, quoteReqs, jsSetDedup_nodup]

/-- C9 amended-claim witness: in the empty-repository run, zero enrichment
requests satisfy the at-most-one/deduplicated characterization. -/
theorem c9_batched_enrichment_witness :
    (quoteReqs (initPage c9Env emptyState).2).length ≤ 1
    ∧ (∀ r ∈ quoteReqs (initPage c9Env emptyState).2,
        r = jsSetDedup ((initPage c9Env emptyState).1.predictions.map Prediction.symbol)
        ∧ r.Nodup)
    ∧ ((initPage c9Env emptyState).1.predictions = [] →
        quoteReqs (initPage c9Env emptyState).2 = []) :=
  c9_batched_enrichment c9Env emptyState

end Predictions
